import Mathlib

/-!
Verification of the interactive hit-region pass-through controller of the
Voxly overlay (src-tauri/src/click_through/{mod,linux,windows}.rs), as a
shallow embedding.  Coordinates and the scale factor are modelled over the
rationals; machine integers (the i32 point coordinates, the 64-bit extended
style word, the u32 tick counter) are modelled as Int and Nat with explicit
wrapping where the source wraps.
-/

namespace ClickThrough

/-- HitRect from click_through/mod.rs: four real-valued fields (x, y, w, h)
in logical pixels. -/
structure HitRect where
  x : ℚ
  y : ℚ
  w : ℚ
  h : ℚ
deriving DecidableEq

/-- The loop-body test of point_in_hit_region for one rectangle:
scale each field, then half-open containment of the point. -/
def rectHit (scale px py : ℚ) (rect : HitRect) : Bool :=
  let rx := rect.x * scale
  let ry := rect.y * scale
  let rw := rect.w * scale
  let rh := rect.h * scale
  px ≥ rx && px < rx + rw && py ≥ ry && py < ry + rh

/-- point_in_hit_region from click_through/mod.rs: checks whether a point in
physical pixels (i32 coordinates, relative to the window top-left) falls
within any interactive hit rect, scaling each rect by the stored scale
factor; the source loop returns on the first match, which is List.any. -/
def point_in_hit_region (rects : List HitRect) (scale : ℚ) (x y : Int) : Bool :=
  let px : ℚ := (x : ℚ)
  let py : ℚ := (y : ℚ)
  rects.any (rectHit scale px py)

/-- C2: containment test correctness, half-open semantics. -/
theorem C2_contains_iff (rects : List HitRect) (scale : ℚ) (x y : Int) :
    (point_in_hit_region rects scale x y = true ↔
      ∃ r ∈ rects,
        r.x * scale ≤ (x : ℚ) ∧ (x : ℚ) < (r.x + r.w) * scale ∧
        r.y * scale ≤ (y : ℚ) ∧ (y : ℚ) < (r.y + r.h) * scale) ∧
    point_in_hit_region [] scale x y = false := by
  constructor
  · simp only [point_in_hit_region, List.any_eq_true, rectHit, Bool.and_eq_true,
      decide_eq_true_eq, ge_iff_le, add_mul]
    constructor
    · rintro ⟨r, hr, ⟨⟨h1, h2⟩, h3⟩, h4⟩
      exact ⟨r, hr, h1, h2, h3, h4⟩
    · rintro ⟨r, hr, h1, h2, h3, h4⟩
      exact ⟨r, hr, ⟨⟨h1, h2⟩, h3⟩, h4⟩
  · rfl

/-- C8: rect {x:10,y:10,w:20,h:20} with scale 2.0 matches physical point
(21,21) but not (19,19) nor (61,61). -/
theorem C8_scale_instance :
    point_in_hit_region [⟨10, 10, 20, 20⟩] 2 21 21 = true ∧
    point_in_hit_region [⟨10, 10, 20, 20⟩] 2 19 19 = false ∧
    point_in_hit_region [⟨10, 10, 20, 20⟩] 2 61 61 = false := by
  refine ⟨?_, ?_, ?_⟩ <;>
    norm_num [point_in_hit_region, rectHit, List.any_cons, List.any_nil]

/-! ## Region Store (mod.rs)

HIT_RECTS and SCALE_FACTOR are two separate Mutex-protected globals.
update_region performs two lock-protected atomic writes in sequence:
first the scale factor, then the rectangle list.  We model the store as a
record and each lock-protected write as one atomic operation; the states a
concurrent reader can observe are exactly the states after a prefix of the
writer's operations. -/

/-- The process-wide region store: contents of HIT_RECTS and SCALE_FACTOR. -/
structure RegionStore where
  hit_rects : List HitRect
  scale_factor : ℚ
deriving DecidableEq

/-- One lock-protected atomic write to the store. -/
inductive StoreOp
  | writeScale (s : ℚ)
  | writeRects (r : List HitRect)
deriving DecidableEq

/-- Apply one atomic write. -/
def applyOp (st : RegionStore) : StoreOp → RegionStore
  | .writeScale s => { st with scale_factor := s }
  | .writeRects r => { st with hit_rects := r }

/-- Apply a sequence of atomic writes in order. -/
def applyOps (st : RegionStore) (ops : List StoreOp) : RegionStore :=
  ops.foldl applyOp st

/-- update_region from mod.rs as its sequence of lock-protected writes:
SCALE_FACTOR is written first, HIT_RECTS second, each under its own mutex. -/
def update_region_ops (rects : List HitRect) (scale : ℚ) : List StoreOp :=
  [.writeScale scale, .writeRects rects]

/-- The claim of C1, stated over the embedding: every store state observable
while an update is in flight (i.e. after any prefix of the update's writes)
is either the pre-update state or the post-update state, so a reader never
sees the rectangle list of one update paired with the scale factor of
another. -/
def snapshotConsistent (st : RegionStore) (rects : List HitRect) (scale : ℚ) : Prop :=
  ∀ k ≤ (update_region_ops rects scale).length,
    applyOps st ((update_region_ops rects scale).take k) = st ∨
    applyOps st ((update_region_ops rects scale).take k) =
      applyOps st (update_region_ops rects scale)

/-- C1 counterexample: starting from the initial store (no rects, scale 1),
an update to ([{10,10,20,20}], 2) is interruptible between its two mutex
writes; the intermediate state pairs the old (empty) rectangle list with the
new scale factor 2, so it is neither the pre- nor the post-state. -/
theorem C1_counterexample :
    ¬ snapshotConsistent ⟨[], 1⟩ [⟨10, 10, 20, 20⟩] 2 := by
  intro h
  have h1 := h 1 (by norm_num [update_region_ops])
  have hmid : applyOps ⟨[], 1⟩ ((update_region_ops [⟨10, 10, 20, 20⟩] 2).take 1) =
      (⟨[], 2⟩ : RegionStore) := rfl
  rw [hmid] at h1
  rcases h1 with h1 | h1
  · have : (2 : ℚ) = 1 := congrArg RegionStore.scale_factor h1
    norm_num at this
  · have : ([] : List HitRect) = [⟨10, 10, 20, 20⟩] :=
      congrArg RegionStore.hit_rects h1
    simp at this

/-- C1 amended: update_region writes the scale factor and then the rectangle
list under two separate mutexes.  After both writes the store holds exactly
the new pair, but the state observable between the two writes pairs the
previous rectangle list with the new scale factor — the snapshot is not
replaced as one unit. -/
theorem C1_two_phase_update (st : RegionStore) (rects : List HitRect) (scale : ℚ) :
    applyOps st (update_region_ops rects scale) = ⟨rects, scale⟩ ∧
    applyOps st ((update_region_ops rects scale).take 1) =
      ⟨st.hit_rects, scale⟩ := by
  exact ⟨rfl, rfl⟩

/-! ## Region-based realizer (linux.rs) -/

/-- A rectangle with integer device-pixel coordinates
(cairo::RectangleInt). -/
structure IRect where
  x : Int
  y : Int
  w : Int
  h : Int
deriving DecidableEq

/-- The Rust cast from f64 to i32 used in linux.rs, on the rational model:
truncation toward zero. -/
def truncToInt (q : ℚ) : Int :=
  if 0 ≤ q then ⌊q⌋ else -⌊-q⌋

/-- One scaled rectangle of the input shape: each field of the hit rect is
multiplied by the scale factor and cast to integer, as in
rebuild_input_shape. -/
def scaleRect (scale : ℚ) (r : HitRect) : IRect :=
  ⟨truncToInt (r.x * scale), truncToInt (r.y * scale),
   truncToInt (r.w * scale), truncToInt (r.h * scale)⟩

/-- The effect of rebuild_input_shape on the windowing system: either no
submission (the GTK/GDK window could not be resolved) or the submission of a
region (a union of integer rectangles) at an offset. -/
inductive ShapeAction
  | noSubmit
  | submit (region : List IRect) (offX offY : Int)
deriving DecidableEq

/-- rebuild_input_shape from linux.rs: if the window cannot be resolved,
return without submitting; if the stored rect list is empty, submit the
empty region at (0,0); otherwise submit the union of the scaled rects at
(0,0).  The region is modelled as the list of rectangles whose union it is. -/
def rebuild_input_shape (windowOk : Bool) (rects : List HitRect) (scale : ℚ) :
    ShapeAction :=
  if !windowOk then .noSubmit
  else if rects.isEmpty then .submit [] 0 0
  else .submit (rects.map (scaleRect scale)) 0 0

/-- setup from linux.rs: sets the initial input shape by calling
rebuild_input_shape. -/
def linux_setup (windowOk : Bool) (rects : List HitRect) (scale : ℚ) :
    ShapeAction :=
  rebuild_input_shape windowOk rects scale

/-- update_region on Linux: after the two store writes it calls
rebuild_input_shape, which reads back the freshly written store. -/
def linux_update_region (windowOk : Bool) (st : RegionStore)
    (rects : List HitRect) (scale : ℚ) : RegionStore × ShapeAction :=
  let st' := applyOps st (update_region_ops rects scale)
  (st', rebuild_input_shape windowOk st'.hit_rects st'.scale_factor)

/-- Membership of a device pixel in the submitted region: the region is the
union of its rectangles (cairo union semantics, half-open on integer
pixels). -/
def regionContains (region : List IRect) (px py : Int) : Bool :=
  region.any (fun r => px ≥ r.x && px < r.x + r.w && py ≥ r.y && py < r.y + r.h)

/-- C3: with a resolvable window and an empty stored rectangle list,
rebuild_input_shape submits the empty region at (0,0); this outcome is
distinct from not submitting at all. -/
theorem C3_empty_submits_empty (scale : ℚ) :
    rebuild_input_shape true [] scale = .submit [] 0 0 ∧
    rebuild_input_shape true [] scale ≠ .noSubmit := by
  exact ⟨rfl, by simp [rebuild_input_shape]⟩

/-- C7: with a resolvable window, rebuild_input_shape — on every update and
once at setup — submits at offset (0,0) the region whose rectangles are the
stored rects with each field scaled by the current scale factor and cast to
integer device pixels, and that region is exactly the union of the scaled
rectangles: a device pixel lies in it iff it lies in the scaled image of
some stored rect. -/
theorem C7_region_geometry (rects : List HitRect) (scale : ℚ) :
    rebuild_input_shape true rects scale =
      .submit (rects.map (scaleRect scale)) 0 0 ∧
    linux_setup true rects scale = rebuild_input_shape true rects scale ∧
    (∀ st : RegionStore,
      linux_update_region true st rects scale =
        (⟨rects, scale⟩, .submit (rects.map (scaleRect scale)) 0 0)) ∧
    ∀ px py : Int,
      regionContains (rects.map (scaleRect scale)) px py = true ↔
        ∃ r ∈ rects,
          (scaleRect scale r).x ≤ px ∧ px < (scaleRect scale r).x + (scaleRect scale r).w ∧
          (scaleRect scale r).y ≤ py ∧ py < (scaleRect scale r).y + (scaleRect scale r).h := by
  refine ⟨?_, rfl, ?_, ?_⟩
  · cases rects <;> rfl
  · intro st
    have h1 : applyOps st (update_region_ops rects scale) = ⟨rects, scale⟩ := rfl
    simp only [linux_update_region, h1]
    cases rects <;> rfl
  · intro px py
    simp only [regionContains, List.any_eq_true, List.mem_map,
      Bool.and_eq_true, decide_eq_true_eq, ge_iff_le]
    constructor
    · rintro ⟨ir, ⟨r, hr, rfl⟩, ⟨⟨h1, h2⟩, h3⟩, h4⟩
      exact ⟨r, hr, h1, h2, h3, h4⟩
    · rintro ⟨r, hr, h1, h2, h3, h4⟩
      exact ⟨scaleRect scale r, ⟨r, hr, rfl⟩, ⟨⟨h1, h2⟩, h3⟩, h4⟩

/-! ## Style-based realizer (windows.rs)

The 64-bit extended style word of the window is modelled as a Nat below
2^64; the u32 tick counter wraps at 2^32.  Each OS mutation the tracker can
perform is recorded as an OsCall value. -/

/-- WS_EX_TRANSPARENT, the ignore-input extended style bit (0x20). -/
def WS_EX_TRANSPARENT : Nat := 0x20

/-- WS_EX_LAYERED, the compositing/layering extended style bit (0x80000). -/
def WS_EX_LAYERED : Nat := 0x80000

/-- All 64 bits of an isize set; bitwise NOT of a mask on isize is XOR with
this value. -/
def ISIZE_MASK : Nat := 2 ^ 64 - 1

/-- Modulus of the wrapping u32 tick counter. -/
def U32_MOD : Nat := 2 ^ 32

/-- WATCHDOG_INTERVAL from windows.rs: 600 ticks of 50 ms each. -/
def WATCHDOG_INTERVAL : Nat := 600

/-- An OS mutation performed by the tracker: a write of the extended style
word (SetWindowLongPtrW with GWL_EXSTYLE) or a layered-attributes/opacity
re-assertion (SetLayeredWindowAttributes). -/
inductive OsCall
  | setWindowLong (newStyle : Nat)
  | setLayeredWindowAttributes
deriving DecidableEq

/-- The new_style value computed by toggle_ex_transparent: set or clear the
WS_EX_TRANSPARENT bit of the style word. -/
def toggle_target (exStyle : Nat) (enable : Bool) : Nat :=
  if enable then exStyle ||| WS_EX_TRANSPARENT
  else exStyle &&& (ISIZE_MASK ^^^ WS_EX_TRANSPARENT)

/-- toggle_ex_transparent from windows.rs: compute new_style and write it
back only if it differs from the current style word; returns the resulting
style word and the OS calls made. -/
def toggle_ex_transparent (exStyle : Nat) (enable : Bool) : Nat × List OsCall :=
  if toggle_target exStyle enable ≠ exStyle then
    (toggle_target exStyle enable, [.setWindowLong (toggle_target exStyle enable)])
  else (exStyle, [])

/-- ensure_layered_visible from windows.rs: set WS_EX_LAYERED if it is not
already set, then unconditionally re-apply SetLayeredWindowAttributes at
full opacity. -/
def ensure_layered_visible (exStyle : Nat) : Nat × List OsCall :=
  if exStyle &&& WS_EX_LAYERED = 0 then
    (exStyle ||| WS_EX_LAYERED,
     [.setWindowLong (exStyle ||| WS_EX_LAYERED), .setLayeredWindowAttributes])
  else (exStyle, [.setLayeredWindowAttributes])

/-- GetWindowRect result, screen coordinates. -/
structure WinRect where
  left : Int
  top : Int
  right : Int
  bottom : Int
deriving DecidableEq

/-- The environment one loop iteration observes: the answers of IsWindow,
IsWindowVisible, GetWindowRect and GetCursorPos on this tick, plus the
region-store snapshot point_in_hit_region reads. -/
structure TickEnv where
  isWindow : Bool
  isWindowVisible : Bool
  getWindowRect : Option WinRect
  getCursorPos : Option (Int × Int)
  hit_rects : List HitRect
  scale_factor : ℚ

/-- The tracker thread's own state: the tick counter, the live extended
style word of the window, and the mirrored PASSTHROUGH boolean. -/
structure TrackerState where
  tick : Nat
  exStyle : Nat
  passthrough : Bool
deriving DecidableEq

/-- The visibility/hit-test part of the loop body (windows.rs lines 78-110):
skip the tick if the window is not visible or a query fails; otherwise
compare the computed target state with the mirrored boolean and toggle only
on a mismatch.  Returns the new style word, the new PASSTHROUGH value and
the OS calls made. -/
def hit_test_step (env : TickEnv) (exStyle : Nat) (passthrough : Bool) :
    Nat × Bool × List OsCall :=
  if !env.isWindowVisible then (exStyle, passthrough, [])
  else
    match env.getWindowRect with
    | none => (exStyle, passthrough, [])
    | some rect =>
      match env.getCursorPos with
      | none => (exStyle, passthrough, [])
      | some p =>
        let x_local := p.1 - rect.left
        let y_local := p.2 - rect.top
        let in_hit_region :=
          point_in_hit_region env.hit_rects env.scale_factor x_local y_local
        let want_passthrough := !in_hit_region
        if want_passthrough && !passthrough then
          ((toggle_ex_transparent exStyle true).1, true,
           (toggle_ex_transparent exStyle true).2)
        else if !want_passthrough && passthrough then
          ((toggle_ex_transparent exStyle false).1, false,
           (toggle_ex_transparent exStyle false).2)
        else (exStyle, passthrough, [])

/-- One iteration of the tracker loop (windows.rs lines 66-111): none means
the thread exits (IsWindow returned false); otherwise the tick counter is
incremented with u32 wrapping, the watchdog runs when the counter is a
multiple of WATCHDOG_INTERVAL, and then the visibility/hit-test part runs. -/
def tracker_tick (env : TickEnv) (s : TrackerState) :
    Option (TrackerState × List OsCall) :=
  if !env.isWindow then none
  else
    let tick' := (s.tick + 1) % U32_MOD
    let w :=
      if tick' % WATCHDOG_INTERVAL = 0 then ensure_layered_visible s.exStyle
      else (s.exStyle, [])
    let h := hit_test_step env w.1 s.passthrough
    some (⟨tick', h.1, h.2.1⟩, w.2 ++ h.2.2)

/-- Run n iterations of the tracker loop under a fixed environment; none if
the thread exited. -/
def run_ticks (env : TickEnv) : Nat → TrackerState → Option TrackerState
  | 0, s => some s
  | n + 1, s =>
    match tracker_tick env s with
    | none => none
    | some (s', _) => run_ticks env n s'

/-- Whether the watchdog body runs on the next iteration from state s:
ensure_layered_visible is the only emitter of SetLayeredWindowAttributes,
so its call appearing among the iteration's OS calls is exactly the
watchdog having run. -/
def watchdog_runs_next (env : TickEnv) (s : TrackerState) : Bool :=
  match tracker_tick env s with
  | none => false
  | some (_, calls) => decide (OsCall.setLayeredWindowAttributes ∈ calls)

/-- Whether the watchdog runs on the n-th iteration (1-based) of the loop
started in state s0. -/
def watchdog_runs_on (env : TickEnv) (s0 : TrackerState) (n : Nat) : Bool :=
  match run_ticks env (n - 1) s0 with
  | none => false
  | some s => watchdog_runs_next env s

/-! ## Helper lemmas about the style word and the loop body -/

theorem WS_EX_TRANSPARENT_eq : WS_EX_TRANSPARENT = 2 ^ 5 := rfl

theorem WS_EX_LAYERED_eq : WS_EX_LAYERED = 2 ^ 19 := rfl

theorem ISIZE_MASK_eq : ISIZE_MASK = 2 ^ 64 - 1 := rfl

/-- The style word returned by toggle_ex_transparent is always the computed
new_style value (the write is skipped exactly when they already agree). -/
theorem toggle_fst (exStyle : Nat) (enable : Bool) :
    (toggle_ex_transparent exStyle enable).1 = toggle_target exStyle enable := by
  unfold toggle_ex_transparent
  split
  · rfl
  · rename_i h
    exact (not_ne_iff.mp h).symm

/-- Bit 5 (WS_EX_TRANSPARENT) of the computed new_style equals the requested
enable flag. -/
theorem toggle_target_testBit_five (exStyle : Nat) (enable : Bool) :
    (toggle_target exStyle enable).testBit 5 = enable := by
  cases enable
  · have h0 : toggle_target exStyle false =
        exStyle &&& (ISIZE_MASK ^^^ WS_EX_TRANSPARENT) := rfl
    rw [h0, Nat.testBit_land, Nat.testBit_xor, ISIZE_MASK_eq, WS_EX_TRANSPARENT_eq,
      Nat.testBit_two_pow_sub_one, Nat.testBit_two_pow_self]
    simp
  · have h0 : toggle_target exStyle true = exStyle ||| WS_EX_TRANSPARENT := rfl
    rw [h0, Nat.testBit_lor, WS_EX_TRANSPARENT_eq, Nat.testBit_two_pow_self]
    simp

/-- Every bit other than bit 5 of the computed new_style agrees with the
old style word (for any style word that fits in an isize). -/
theorem toggle_target_testBit_of_ne (exStyle : Nat) (hs : exStyle < 2 ^ 64)
    (enable : Bool) (i : Nat) (hi : i ≠ 5) :
    (toggle_target exStyle enable).testBit i = exStyle.testBit i := by
  cases enable
  · have h0 : toggle_target exStyle false =
        exStyle &&& (ISIZE_MASK ^^^ WS_EX_TRANSPARENT) := rfl
    rw [h0, Nat.testBit_land, Nat.testBit_xor, ISIZE_MASK_eq, WS_EX_TRANSPARENT_eq,
      Nat.testBit_two_pow_sub_one, Nat.testBit_two_pow_of_ne (Ne.symm hi)]
    by_cases h64 : i < 64
    · simp [h64]
    · have hx : exStyle.testBit i = false :=
        Nat.testBit_lt_two_pow
          (lt_of_lt_of_le hs (Nat.pow_le_pow_right (by norm_num) (le_of_not_lt h64)))
      simp [h64, hx]
  · have h0 : toggle_target exStyle true = exStyle ||| WS_EX_TRANSPARENT := rfl
    rw [h0, Nat.testBit_lor, WS_EX_TRANSPARENT_eq,
      Nat.testBit_two_pow_of_ne (Ne.symm hi)]
    simp

/-- Applying the computed new_style transformation twice with the same flag
gives the same style word as applying it once. -/
theorem toggle_target_idem (exStyle : Nat) (enable : Bool) :
    toggle_target (toggle_target exStyle enable) enable =
      toggle_target exStyle enable := by
  apply Nat.eq_of_testBit_eq
  intro i
  cases enable
  · simp only [toggle_target, Bool.false_eq_true, if_false, Nat.testBit_land]
    cases exStyle.testBit i <;>
      cases (ISIZE_MASK ^^^ WS_EX_TRANSPARENT).testBit i <;> rfl
  · simp only [toggle_target, if_true, Nat.testBit_lor]
    cases exStyle.testBit i <;> cases WS_EX_TRANSPARENT.testBit i <;> rfl

/-- A second invocation of toggle_ex_transparent with the same flag finds
new_style equal to the current style and makes no OS call. -/
theorem toggle_second_call_empty (exStyle : Nat) (enable : Bool) :
    (toggle_ex_transparent (toggle_ex_transparent exStyle enable).1 enable).2 = [] := by
  rw [toggle_fst]
  unfold toggle_ex_transparent
  rw [toggle_target_idem]
  simp

/-- toggle_ex_transparent makes either no OS call or exactly one style
write. -/
theorem toggle_calls_cases (exStyle : Nat) (enable : Bool) :
    (toggle_ex_transparent exStyle enable).2 = [] ∨
    ∃ n, (toggle_ex_transparent exStyle enable).2 = [OsCall.setWindowLong n] := by
  unfold toggle_ex_transparent
  split
  · exact Or.inr ⟨_, rfl⟩
  · exact Or.inl rfl

/-- ensure_layered_visible never changes bit 5 (WS_EX_TRANSPARENT) of the
style word. -/
theorem ensure_layered_fst_testBit_five (exStyle : Nat) :
    (ensure_layered_visible exStyle).1.testBit 5 = exStyle.testBit 5 := by
  unfold ensure_layered_visible
  split
  · simp [WS_EX_LAYERED_eq, Nat.testBit_lor,
      Nat.testBit_two_pow_of_ne (by decide : (19 : Nat) ≠ 5)]
  · rfl

/-- ensure_layered_visible always re-applies the layered attributes. -/
theorem ensure_layered_mem_layered (exStyle : Nat) :
    OsCall.setLayeredWindowAttributes ∈ (ensure_layered_visible exStyle).2 := by
  unfold ensure_layered_visible
  split <;> simp

/-- The visibility/hit-test part of the loop emits either no OS call or a
single style write. -/
theorem hit_test_calls_cases (env : TickEnv) (st : Nat) (pt : Bool) :
    (hit_test_step env st pt).2.2 = [] ∨
    ∃ n, (hit_test_step env st pt).2.2 = [OsCall.setWindowLong n] := by
  obtain ⟨iw, iv, orect, ocur, rects, scale⟩ := env
  cases iv
  · exact Or.inl rfl
  · cases orect
    · exact Or.inl rfl
    · cases ocur
      · exact Or.inl rfl
      · rename_i rect p
        unfold hit_test_step
        dsimp only
        cases hb : point_in_hit_region rects scale (p.1 - rect.left) (p.2 - rect.top) <;>
          cases pt
        · exact toggle_calls_cases st true
        · exact Or.inl rfl
        · exact Or.inl rfl
        · exact toggle_calls_cases st false

/-- The visibility/hit-test part of the loop never emits the
layered-attributes call. -/
theorem hit_test_no_layered (env : TickEnv) (st : Nat) (pt : Bool) :
    OsCall.setLayeredWindowAttributes ∉ (hit_test_step env st pt).2.2 := by
  rcases hit_test_calls_cases env st pt with h | ⟨n, h⟩ <;> simp [h]

/-- If the window is not visible or one of the per-tick queries fails, the
visibility/hit-test part of the loop changes nothing and makes no OS call. -/
theorem hit_test_step_skip (env : TickEnv) (st : Nat) (pt : Bool)
    (h : env.isWindowVisible = false ∨ env.getWindowRect = none ∨
      env.getCursorPos = none) :
    hit_test_step env st pt = (st, pt, []) := by
  obtain ⟨iw, iv, orect, ocur, rects, scale⟩ := env
  rcases h with h | h | h
  · subst h
    rfl
  · subst h
    cases iv
    · rfl
    · rfl
  · subst h
    cases iv
    · rfl
    · cases orect
      · rfl
      · rfl

/-- The loop iteration returns none exactly when IsWindow answered false. -/
theorem tracker_tick_none_iff (env : TickEnv) (s : TrackerState) :
    tracker_tick env s = none ↔ env.isWindow = false := by
  obtain ⟨iw, iv, orect, ocur, rects, scale⟩ := env
  cases iw
  · simp [tracker_tick]
  · simp [tracker_tick]

/-- Unfolding of a loop iteration when IsWindow answers true. -/
theorem tracker_tick_eq (env : TickEnv) (hw : env.isWindow = true)
    (s : TrackerState) :
    tracker_tick env s =
      (let tick' := (s.tick + 1) % U32_MOD
       let w :=
         if tick' % WATCHDOG_INTERVAL = 0 then ensure_layered_visible s.exStyle
         else (s.exStyle, [])
       let h := hit_test_step env w.1 s.passthrough
       some (⟨tick', h.1, h.2.1⟩, w.2 ++ h.2.2)) := by
  unfold tracker_tick
  rw [hw]
  rfl

/-- While IsWindow answers true, one loop iteration always produces a state
whose tick counter is the wrapped increment of the old one. -/
theorem tracker_tick_some (env : TickEnv) (hw : env.isWindow = true)
    (s : TrackerState) :
    ∃ st2 pt2 calls, tracker_tick env s =
      some (⟨(s.tick + 1) % U32_MOD, st2, pt2⟩, calls) := by
  rw [tracker_tick_eq env hw s]
  exact ⟨_, _, _, rfl⟩

/-- While IsWindow keeps answering true, n loop iterations always produce a
state, and the tick counter advances by n with u32 wrapping. -/
theorem run_ticks_tick (env : TickEnv) (hw : env.isWindow = true) :
    ∀ (n : Nat) (s : TrackerState), s.tick < U32_MOD →
      ∃ s', run_ticks env n s = some s' ∧
        s'.tick = (s.tick + n) % U32_MOD ∧ s'.tick < U32_MOD := by
  intro n
  induction n with
  | zero =>
    intro s hs
    exact ⟨s, rfl, by simp [Nat.mod_eq_of_lt hs], hs⟩
  | succ n ih =>
    intro s hs
    obtain ⟨st2, pt2, calls, hstep⟩ := tracker_tick_some env hw s
    have hlt : ((s.tick + 1) % U32_MOD) < U32_MOD :=
      Nat.mod_lt _ (by norm_num [U32_MOD])
    obtain ⟨s', h1, h2, h3⟩ := ih ⟨(s.tick + 1) % U32_MOD, st2, pt2⟩ hlt
    refine ⟨s', ?_, ?_, h3⟩
    · simp only [run_ticks, hstep]
      exact h1
    · rw [h2]
      simp only [Nat.mod_add_mod]
      congr 1
      omega

/-- The watchdog body runs on an iteration exactly when the incremented,
wrapped tick counter is a multiple of WATCHDOG_INTERVAL. -/
theorem watchdog_runs_next_eq (env : TickEnv) (hw : env.isWindow = true)
    (s : TrackerState) :
    watchdog_runs_next env s =
      decide (((s.tick + 1) % U32_MOD) % WATCHDOG_INTERVAL = 0) := by
  unfold watchdog_runs_next
  rw [tracker_tick_eq env hw s]
  dsimp only
  by_cases hdue : ((s.tick + 1) % U32_MOD) % WATCHDOG_INTERVAL = 0
  · rw [if_pos hdue]
    have h1 := ensure_layered_mem_layered s.exStyle
    simp [List.mem_append, h1, hdue]
  · rw [if_neg hdue]
    have h1 := hit_test_no_layered env s.exStyle s.passthrough
    simp [List.mem_append, h1, hdue]

/-! ## Claim theorems for the style-based realizer -/

/-- C5: the watchdog re-assertion runs on a tick iff the (wrapped, u32) tick
counter is a multiple of WATCHDOG_INTERVAL = 600; starting the loop at
counter 0, it does not run on any of the first 599 ticks and runs for the
first time on tick 600. -/
theorem C5_watchdog_cadence (env : TickEnv) (hw : env.isWindow = true)
    (style : Nat) (pt : Bool) :
    (∀ s : TrackerState, watchdog_runs_next env s =
        decide (((s.tick + 1) % U32_MOD) % WATCHDOG_INTERVAL = 0)) ∧
    (∀ n, 1 ≤ n → n < WATCHDOG_INTERVAL →
        watchdog_runs_on env ⟨0, style, pt⟩ n = false) ∧
    watchdog_runs_on env ⟨0, style, pt⟩ WATCHDOG_INTERVAL = true := by
  refine ⟨fun s => watchdog_runs_next_eq env hw s, ?_, ?_⟩
  · intro n h1 h600
    simp only [WATCHDOG_INTERVAL] at h600
    obtain ⟨s', hrun, htick, _⟩ :=
      run_ticks_tick env hw (n - 1) ⟨0, style, pt⟩ (by norm_num [U32_MOD])
    have ht2 : s'.tick = n - 1 := by
      rw [htick]
      dsimp only
      simp only [U32_MOD]
      omega
    unfold watchdog_runs_on
    rw [hrun]
    dsimp only
    rw [watchdog_runs_next_eq env hw s', ht2, decide_eq_false_iff_not]
    have hn : n - 1 + 1 = n := by omega
    rw [hn, Nat.mod_eq_of_lt (show n < U32_MOD by simp only [U32_MOD]; omega)]
    simp only [WATCHDOG_INTERVAL]
    omega
  · obtain ⟨s', hrun, htick, _⟩ :=
      run_ticks_tick env hw (WATCHDOG_INTERVAL - 1) ⟨0, style, pt⟩
        (by norm_num [U32_MOD])
    have ht2 : s'.tick = 599 := by
      rw [htick]
      dsimp only
      simp only [U32_MOD, WATCHDOG_INTERVAL]
      omega
    unfold watchdog_runs_on
    rw [hrun]
    dsimp only
    rw [watchdog_runs_next_eq env hw s', ht2, decide_eq_true_eq]
    rw [Nat.mod_eq_of_lt (show 599 + 1 < U32_MOD by simp only [U32_MOD]; omega)]
    simp only [WATCHDOG_INTERVAL]

/-- C5 witness: with a valid window, the loop started at counter 0 runs the
watchdog on its 600th tick. -/
theorem C5_witness :
    watchdog_runs_on ⟨true, true, none, none, [], 1⟩ ⟨0, 0, true⟩
      WATCHDOG_INTERVAL = true :=
  (C5_watchdog_cadence ⟨true, true, none, none, [], 1⟩ rfl 0 true).2.2

/-- C6: the loop iteration exits (returns none) exactly when IsWindow fails,
and on a tick where the window is visible but GetWindowRect or GetCursorPos
fails, the hit-test part changes nothing and makes no call, while the loop
continues with the pass-through boolean and the WS_EX_TRANSPARENT bit
unchanged. -/
theorem C6_error_handling (env : TickEnv) (s : TrackerState) :
    (tracker_tick env s = none ↔ env.isWindow = false) ∧
    (env.isWindowVisible = true →
      env.getWindowRect = none ∨ env.getCursorPos = none →
      ∀ st pt, hit_test_step env st pt = (st, pt, [])) ∧
    (env.isWindow = true →
      env.getWindowRect = none ∨ env.getCursorPos = none →
      ∃ s' calls, tracker_tick env s = some (s', calls) ∧
        s'.passthrough = s.passthrough ∧
        s'.exStyle.testBit 5 = s.exStyle.testBit 5 ∧
        s'.tick = (s.tick + 1) % U32_MOD) := by
  refine ⟨tracker_tick_none_iff env s, ?_, ?_⟩
  · intro _ h st pt
    exact hit_test_step_skip env st pt (Or.inr h)
  · intro hw h
    rw [tracker_tick_eq env hw s]
    dsimp only
    rw [hit_test_step_skip env _ s.passthrough (Or.inr h)]
    refine ⟨_, _, rfl, rfl, ?_, rfl⟩
    by_cases hdue : ((s.tick + 1) % U32_MOD) % WATCHDOG_INTERVAL = 0
    · rw [if_pos hdue]
      exact ensure_layered_fst_testBit_five s.exStyle
    · rw [if_neg hdue]

/-- C6 witness: a tick with a valid, visible window whose GetWindowRect
fails is skipped and the loop continues with the state preserved. -/
theorem C6_witness :
    ∃ s' calls,
      tracker_tick ⟨true, true, none, some (0, 0), [], 1⟩ ⟨0, 0, true⟩ =
        some (s', calls) ∧
      s'.passthrough = true ∧
      s'.exStyle.testBit 5 = (0 : Nat).testBit 5 ∧
      s'.tick = (0 + 1) % U32_MOD :=
  (C6_error_handling ⟨true, true, none, some (0, 0), [], 1⟩ ⟨0, 0, true⟩).2.2
    rfl (Or.inl rfl)

/-- C9: the pass-through toggle changes only bit 5 (WS_EX_TRANSPARENT) of
the extended style word: every other bit — in particular bit 19
(WS_EX_LAYERED) — is preserved, and bit 5 ends up equal to the requested
flag. -/
theorem C9_style_frame_condition (exStyle : Nat) (hs : exStyle < 2 ^ 64)
    (enable : Bool) :
    (∀ i, i ≠ 5 →
        ((toggle_ex_transparent exStyle enable).1).testBit i = exStyle.testBit i) ∧
    ((toggle_ex_transparent exStyle enable).1).testBit 5 = enable ∧
    ((toggle_ex_transparent exStyle enable).1).testBit 19 = exStyle.testBit 19 := by
  rw [toggle_fst]
  exact ⟨fun i hi => toggle_target_testBit_of_ne exStyle hs enable i hi,
    toggle_target_testBit_five exStyle enable,
    toggle_target_testBit_of_ne exStyle hs enable 19 (by decide)⟩

/-- C9 witness: enabling pass-through on a style word with only
WS_EX_LAYERED set keeps bit 19 and sets bit 5. -/
theorem C9_witness :
    ((toggle_ex_transparent 524288 true).1).testBit 19 =
      (524288 : Nat).testBit 19 ∧
    ((toggle_ex_transparent 524288 true).1).testBit 5 = true :=
  ⟨(C9_style_frame_condition 524288 (by norm_num) true).2.2,
   (C9_style_frame_condition 524288 (by norm_num) true).2.1⟩

/-- C10: on a tick with a valid but invisible window, the pass-through
boolean and the WS_EX_TRANSPARENT bit are unchanged and the only OS calls
are the watchdog's (none at all when the counter is not due), while the
watchdog — checked before the visibility guard — still runs exactly when
its tick count is due. -/
theorem C10_invisible_tick (env : TickEnv) (s : TrackerState)
    (hw : env.isWindow = true) (hv : env.isWindowVisible = false) :
    ∃ s', tracker_tick env s =
        some (s', if ((s.tick + 1) % U32_MOD) % WATCHDOG_INTERVAL = 0 then
            (ensure_layered_visible s.exStyle).2 else []) ∧
      s'.passthrough = s.passthrough ∧
      s'.exStyle.testBit 5 = s.exStyle.testBit 5 ∧
      watchdog_runs_next env s =
        decide (((s.tick + 1) % U32_MOD) % WATCHDOG_INTERVAL = 0) := by
  rw [tracker_tick_eq env hw s]
  dsimp only
  rw [hit_test_step_skip env _ s.passthrough (Or.inl hv)]
  by_cases hdue : ((s.tick + 1) % U32_MOD) % WATCHDOG_INTERVAL = 0
  · rw [if_pos hdue, if_pos hdue]
    refine ⟨⟨(s.tick + 1) % U32_MOD, (ensure_layered_visible s.exStyle).1,
        s.passthrough⟩, ?_, rfl, ensure_layered_fst_testBit_five s.exStyle,
      watchdog_runs_next_eq env hw s⟩
    rw [List.append_nil]
  · rw [if_neg hdue, if_neg hdue]
    exact ⟨⟨(s.tick + 1) % U32_MOD, s.exStyle, s.passthrough⟩, rfl, rfl, rfl,
      watchdog_runs_next_eq env hw s⟩

/-- C10 witness: with a valid invisible window on a non-watchdog tick, the
iteration makes no OS call and freezes the pass-through boolean. -/
theorem C10_witness :
    ∃ s', tracker_tick ⟨true, false, none, none, [], 1⟩ ⟨0, 7, true⟩ =
        some (s', if ((0 + 1) % U32_MOD) % WATCHDOG_INTERVAL = 0 then
            (ensure_layered_visible 7).2 else []) ∧
      s'.passthrough = true ∧
      s'.exStyle.testBit 5 = (7 : Nat).testBit 5 ∧
      watchdog_runs_next ⟨true, false, none, none, [], 1⟩ ⟨0, 7, true⟩ =
        decide (((0 + 1) % U32_MOD) % WATCHDOG_INTERVAL = 0) :=
  C10_invisible_tick ⟨true, false, none, none, [], 1⟩ ⟨0, 7, true⟩ rfl rfl

/-- Total number of OS style-write calls made by two successive invocations
of toggle_ex_transparent with the same target flag. -/
def toggle_twice_calls (exStyle : Nat) (enable : Bool) : Nat :=
  (toggle_ex_transparent exStyle enable).2.length +
    (toggle_ex_transparent (toggle_ex_transparent exStyle enable).1 enable).2.length

/-- C4 counterexample: on a style word whose WS_EX_TRANSPARENT bit is
already set, invoking the toggle twice with enable = true performs zero OS
style-write calls, not exactly one. -/
theorem C4_counterexample :
    toggle_twice_calls 32 true = 0 ∧ toggle_twice_calls 32 true ≠ 1 := by
  decide

/-- C4 amended: two successive invocations of the toggle with the same
target perform at most one OS style-write call — the second invocation
performs none, and exactly one call in total is made when the
WS_EX_TRANSPARENT bit initially differs from the target; moreover, on any
tick where the computed target pass-through state equals the current
mirrored state, the hit-test part of the loop makes no OS call and changes
nothing. -/
theorem C4_toggle_idempotent (exStyle : Nat) (enable : Bool) (env : TickEnv)
    (style : Nat) (pt : Bool) :
    (toggle_ex_transparent (toggle_ex_transparent exStyle enable).1 enable).2 = [] ∧
    (exStyle.testBit 5 ≠ enable → toggle_twice_calls exStyle enable = 1) ∧
    (∀ (rect : WinRect) (cx cy : Int),
      env.isWindowVisible = true →
      env.getWindowRect = some rect →
      env.getCursorPos = some (cx, cy) →
      (!point_in_hit_region env.hit_rects env.scale_factor (cx - rect.left)
          (cy - rect.top)) = pt →
      hit_test_step env style pt = (style, pt, [])) := by
  refine ⟨toggle_second_call_empty exStyle enable, ?_, ?_⟩
  · intro hbit
    have hne : toggle_target exStyle enable ≠ exStyle := by
      intro he
      apply hbit
      rw [← toggle_target_testBit_five exStyle enable, he]
    unfold toggle_twice_calls
    rw [toggle_second_call_empty exStyle enable]
    simp only [List.length_nil, Nat.add_zero]
    unfold toggle_ex_transparent
    rw [if_pos hne]
    rfl
  · intro rect cx cy hv hr hc hwant
    obtain ⟨iw, iv, orect, ocur, rects, scale⟩ := env
    subst hv
    subst hr
    subst hc
    unfold hit_test_step
    dsimp only
    dsimp only at hwant
    rw [hwant]
    cases pt <;> simp

/-- C4 witness: from a style word with the bit clear, toggling twice with
enable = true makes exactly one OS call; a tick whose computed target
equals the mirrored state changes nothing. -/
theorem C4_witness :
    toggle_twice_calls 0 true = 1 ∧
    hit_test_step ⟨true, true, some ⟨0, 0, 100, 100⟩, some (200, 200), [], 1⟩
      0 true = (0, true, []) := by
  constructor
  · exact (C4_toggle_idempotent 0 true
      ⟨true, true, some ⟨0, 0, 100, 100⟩, some (200, 200), [], 1⟩ 0 true).2.1
      (by decide)
  · exact (C4_toggle_idempotent 0 true
      ⟨true, true, some ⟨0, 0, 100, 100⟩, some (200, 200), [], 1⟩ 0 true).2.2
      ⟨0, 0, 100, 100⟩ 200 200 rfl rfl rfl rfl

end ClickThrough
